import Mathlib

/-!
# Alchemy resource reconciliation engine: verification of the spec's claims

This development embeds, in Lean, the Docker provider handlers found in the
repository (`src/alchemy/src/docker/*.ts`, the container provider, the
remote-image provider, and the network provider published in
`src/alchemy-web/docs/providers/docker/index.md`), together with a model of
the generic reconciliation engine (phase selection, state store, scope
registration, finalize and destroy sweeps).  The engine's own source files
(`resource.ts`, `context.ts`, `alchemy.ts`, `destroy.ts`) are not in the
source tree we were given, so the engine definitions are modelled from the
specification text and are marked as such in their doc comments.

Handlers are embedded as pure functions.  Effects of the Docker daemon and
of the filesystem are supplied by a `DockerDaemon` oracle record that fixes
the outcome of every external call; each handler returns the terminal
action it took (`commit`, `destroyed` or `raised`) together with the list
of external calls it made, in order.
-/

namespace Alchemy

/-! ## Phases and handler results -/

/-- The per-invocation phase carried by an `ExecutionContext`
(`create`, `update`, `delete`). -/
inductive Phase where
  | create
  | update
  | delete
deriving DecidableEq, Repr

/-- The overall run phase: `up` (the spec also calls it "apply") or
`destroy`. -/
inductive RunPhase where
  | up
  | destroy
deriving DecidableEq, Repr

/-- The terminal outcome of one handler invocation: `commit out` models
`this(out)` (commit new output), `destroyed` models `this.destroy()`
(confirm destruction), and `raised msg` models the handler throwing
before reaching a terminal action. -/
inductive HandlerResult (O : Type) where
  | commit (out : O)
  | destroyed
  | raised (msg : String)
deriving DecidableEq, Repr

/-- One external call made through the `DockerApi` wrapper (each method of
`DockerApi` shells out to the `docker` command-line tool; `isRunning` is
the daemon-reachability probe). -/
inductive ApiCall where
  | isRunning
  | stopContainer (id : String)
  | removeContainer (id : String) (force : Bool)
  | containerExists (name : String)
  | createContainer (image : String) (name : String)
      (ports : List (String × String)) (volumes : List (String × String))
      (env : Option (List (String × String))) (cmd : Option (List String))
  | connectNetwork (containerId : String) (network : String)
      (aliases : Option (List String))
  | startContainer (id : String)
  | createVolume (name : String) (driver : String)
      (driverOpts : List (String × String)) (labels : List (String × String))
  | inspectVolume (name : String)
  | removeVolume (name : String)
  | createNetwork (name : String) (driver : String)
  | removeNetwork (id : String)
  | pullImage (ref : String)
  | buildImage (context : String) (ref : String) (args : List (String × String))
  | execDocker (args : List String)
deriving DecidableEq, Repr

/-- The value a handler invocation produces in this embedding: the terminal
action taken, plus the ordered list of external calls it issued. -/
structure Step (O : Type) where
  result : HandlerResult O
  calls : List ApiCall
deriving DecidableEq, Repr

/-! ## JavaScript helpers

Small helpers mirroring JavaScript idioms that appear in the handlers. -/

/-- JavaScript `v || d` for an optional string: `undefined` and the empty
string are falsy. -/
def strOr (v : Option String) (d : String) : String :=
  match v with
  | some s => if s = "" then d else s
  | none => d

/-- JavaScript truthiness of an optional boolean (`undefined` is falsy). -/
def boolOpt (v : Option Bool) : Bool :=
  v.getD false

/-- JavaScript truthiness of a string (only the empty string is falsy). -/
def strTruthy (s : String) : Bool :=
  s ≠ ""

/-- JavaScript object property assignment `m[k] = v` on an object
represented as an insertion-ordered association list: an existing key
keeps its position and gets the new value, a fresh key is appended. -/
def recordSet (m : List (String × String)) (k v : String) : List (String × String) :=
  if m.any (fun kv => kv.1 = k) then
    m.map (fun kv => if kv.1 = k then (k, v) else kv)
  else
    m ++ [(k, v)]

/-! ## The Docker daemon / filesystem oracle

Handlers consult the outside world only through `DockerApi` (and, for the
image-build provider, `fs.existsSync`).  A `DockerDaemon` record fixes the
outcome of every such call, so a handler becomes a pure function of the
oracle and its arguments. -/

/-- Outcomes of all external calls a Docker handler can make.  `isRunning`
is the result of the daemon-reachability probe; the `Except` fields give
either the command's result or the error it throws. -/
structure DockerDaemon where
  isRunning : Bool
  containerExists : String → Bool
  stopContainer : String → Except String Unit
  removeContainer : String → Except String Unit
  createContainer : String → String → Except String String
  connectNetwork : String → String → Except String Unit
  startContainer : String → Except String Unit
  createVolume : String → Except String String
  inspectMountpoint : String → Option String
  removeVolume : String → Except String Unit
  createNetwork : String → String → Except String String
  removeNetwork : String → Except String Unit
  pullImage : String → Except String Unit
  buildImage : String → Except String Unit
  execBuild : List String → Except String String
  fsExists : String → Bool

/-! ## DockerContainer (embedded from the container provider source) -/

/-- The `image` property of a container: a plain image reference string, or
an Alchemy image resource, of which the handler only reads `imageRef`. -/
inductive ImageInput where
  | str (ref : String)
  | resource (imageRef : String)
deriving DecidableEq, Repr

/-- `typeof props.image === "string" ? props.image : props.image.imageRef`. -/
def ImageInput.ref : ImageInput → String
  | .str s => s
  | .resource r => r

/-- Container state values (`DockerContainer.state`). -/
inductive ContainerState where
  | created
  | running
  | paused
  | stopped
  | exited
deriving DecidableEq, Repr

/-- `PortMapping` from the container provider.  The source stringifies the
`number | string` ports with template literals, so they are embedded as
strings. -/
structure PortMapping where
  external : String
  internal : String
  protocol : Option String
deriving DecidableEq, Repr

/-- `VolumeMapping` from the container provider. -/
structure VolumeMapping where
  hostPath : String
  containerPath : String
  readOnly : Option Bool
deriving DecidableEq, Repr

/-- A member of `props.networks`: the declared type is `NetworkMapping`
(an object with `name` and optional `aliases`), but the handler also
accepts a bare string (`typeof network === "string"`), as the examples do. -/
inductive NetworkAttachment where
  | str (name : String)
  | obj (name : String) (aliases : Option (List String))
deriving DecidableEq, Repr

/-- The network id the handler connects to:
`typeof network === "string" ? network : network.name`. -/
def NetworkAttachment.idOf : NetworkAttachment → String
  | .str s => s
  | .obj n _ => n

/-- The aliases passed to `connectNetwork` (`network.aliases`; a bare
string has none). -/
def NetworkAttachment.aliasesOf : NetworkAttachment → Option (List String)
  | .str _ => none
  | .obj _ a => a

/-- `DockerContainerProps` from the container provider.  `environment` is a
`Record<string, string>` embedded as an insertion-ordered association
list. -/
structure DockerContainerProps where
  image : ImageInput
  name : Option String
  command : Option (List String)
  environment : Option (List (String × String))
  ports : Option (List PortMapping)
  volumes : Option (List VolumeMapping)
  restart : Option String
  networks : Option (List NetworkAttachment)
  removeOnExit : Option Bool
  start : Option Bool
deriving DecidableEq, Repr

/-- The `DockerContainer` output interface: the spread of the props plus
`id`, `state` and `createdAt`. -/
structure DockerContainerOut where
  image : ImageInput
  name : Option String
  command : Option (List String)
  environment : Option (List (String × String))
  ports : Option (List PortMapping)
  volumes : Option (List VolumeMapping)
  restart : Option String
  networks : Option (List NetworkAttachment)
  removeOnExit : Option Bool
  start : Option Bool
  id : String
  state : Option ContainerState
  createdAt : Nat
deriving DecidableEq, Repr

/-- `id.replace(/[^a-zA-Z0-9_.-]/g, "-")`: any character outside
`[a-zA-Z0-9_.-]` becomes a dash. -/
def sanitizeChar (c : Char) : Char :=
  if c.isAlphanum ∨ c = '_' ∨ c = '.' ∨ c = '-' then c else '-'

/-- The sanitized resource id used in the generated container name
(character-wise image of the id under `sanitizeChar`). -/
def sanitizeId (s : String) : String :=
  String.mk (s.data.map sanitizeChar)

/-- `props.name || "alchemy-" + id.replace(...)`. -/
def containerNameOf (id : String) (props : DockerContainerProps) : String :=
  strOr props.name ("alchemy-" ++ sanitizeId id)

/-- The mock container output committed when the Docker daemon is not
running: the spread of the props with a time-stamped mock id, the state
implied by `props.start`, and `createdAt := Date.now()`. -/
def containerMock (props : DockerContainerProps) (containerName : String)
    (now : Nat) : DockerContainerOut :=
  { image := props.image
    name := props.name
    command := props.command
    environment := props.environment
    ports := props.ports
    volumes := props.volumes
    restart := props.restart
    networks := props.networks
    removeOnExit := props.removeOnExit
    start := props.start
    id := "mock-" ++ containerName ++ "-" ++ toString now
    state := some (if boolOpt props.start then .running else .created)
    createdAt := now }

/-- The port-mapping record the handler builds:
`portMappings[`${port.external}`] = `${port.internal}/${protocol}``
with `protocol = port.protocol || "tcp"`. -/
def buildPortMappings (ports : Option (List PortMapping)) :
    List (String × String) :=
  match ports with
  | none => []
  | some ps =>
    ps.foldl
      (fun acc p =>
        recordSet acc p.external (p.internal ++ "/" ++ strOr p.protocol "tcp"))
      []

/-- The volume-mapping record the handler builds:
`volumeMappings[volume.hostPath] = `${volume.containerPath}${readOnlyFlag}``. -/
def buildVolumeMappings (volumes : Option (List VolumeMapping)) :
    List (String × String) :=
  match volumes with
  | none => []
  | some vs =>
    vs.foldl
      (fun acc v =>
        recordSet acc v.hostPath
          (v.containerPath ++ if boolOpt v.readOnly then ":ro" else ""))
      []

/-- The `for (const network of props.networks)` loop: connect the new
container to each declared network in order, stopping at the first error
(an error escapes to the surrounding `catch`, which rethrows). -/
def connectAll (api : DockerDaemon) (cid : String) :
    List NetworkAttachment → List ApiCall × Option String
  | [] => ([], none)
  | n :: rest =>
    let call := ApiCall.connectNetwork cid n.idOf n.aliasesOf
    match api.connectNetwork cid n.idOf with
    | .error e => ([call], some e)
    | .ok _ =>
      let (cs, r) := connectAll api cid rest
      (call :: cs, r)

/-- The committed container output
`this({...props, id: containerId, state: containerState, createdAt: Date.now()})`. -/
def containerCommit (props : DockerContainerProps) (containerId : String)
    (st : ContainerState) (now : Nat) : DockerContainerOut :=
  { image := props.image
    name := props.name
    command := props.command
    environment := props.environment
    ports := props.ports
    volumes := props.volumes
    restart := props.restart
    networks := props.networks
    removeOnExit := props.removeOnExit
    start := props.start
    id := containerId
    state := some st
    createdAt := now }

/-- From `createContainer` on: the part of the container create/update
branch after the update-time removal of the existing container. -/
def containerCreateRest (api : DockerDaemon) (props : DockerContainerProps)
    (imageRef containerName : String) (now : Nat) (calls : List ApiCall) :
    Step DockerContainerOut :=
  let portMappings := buildPortMappings props.ports
  let volumeMappings := buildVolumeMappings props.volumes
  let createCall := ApiCall.createContainer imageRef containerName
    portMappings volumeMappings props.environment props.command
  match api.createContainer imageRef containerName with
  | .error e => { result := .raised e, calls := calls ++ [createCall] }
  | .ok containerId =>
    let (netCalls, netErr) := connectAll api containerId (props.networks.getD [])
    match netErr with
    | some e =>
      { result := .raised e, calls := calls ++ [createCall] ++ netCalls }
    | none =>
      if boolOpt props.start then
        match api.startContainer containerId with
        | .error e =>
          { result := .raised e
            calls := calls ++ [createCall] ++ netCalls
              ++ [ApiCall.startContainer containerId] }
        | .ok _ =>
          { result := .commit (containerCommit props containerId .running now)
            calls := calls ++ [createCall] ++ netCalls
              ++ [ApiCall.startContainer containerId] }
      else
        { result := .commit (containerCommit props containerId .created now)
          calls := calls ++ [createCall] ++ netCalls }

/-- The create/update branch of the container handler (the body of the big
`try` in the `else` arm): remove the existing container on update, create
the container, connect its networks, optionally start it, and commit. -/
def containerCreateUpdate (api : DockerDaemon) (phase : Phase)
    (props : DockerContainerProps) (imageRef containerName : String)
    (now : Nat) (callsPre : List ApiCall) : Step DockerContainerOut :=
  let existing := api.containerExists containerName
  let calls1 := callsPre ++ [ApiCall.containerExists containerName]
  if phase = .update ∧ existing then
    match api.removeContainer containerName with
    | .error e =>
      { result := .raised e
        calls := calls1 ++ [ApiCall.removeContainer containerName true] }
    | .ok _ =>
      containerCreateRest api props imageRef containerName now
        (calls1 ++ [ApiCall.removeContainer containerName true])
  else
    containerCreateRest api props imageRef containerName now calls1

/-- The `DockerContainer` handler (the container provider source).
Control flow, in source order: probe the daemon and commit a mock output
if it is not running; otherwise dispatch on `this.phase`.  In `delete`
phase, stop and remove the prior container (both errors swallowed) and
confirm destruction; otherwise run the create/update branch. -/
def dockerContainerHandler (api : DockerDaemon) (phase : Phase)
    (prior : Option DockerContainerOut) (id : String)
    (props : DockerContainerProps) (now : Nat) : Step DockerContainerOut :=
  let imageRef := props.image.ref
  let containerName := containerNameOf id props
  if api.isRunning = false then
    { result := .commit (containerMock props containerName now)
      calls := [ApiCall.isRunning] }
  else if phase = .delete then
    match prior with
    | some out =>
      if strTruthy out.id then
        { result := .destroyed
          calls := [ApiCall.isRunning, ApiCall.stopContainer out.id,
            ApiCall.removeContainer out.id true] }
      else
        { result := .destroyed, calls := [ApiCall.isRunning] }
    | none => { result := .destroyed, calls := [ApiCall.isRunning] }
  else
    containerCreateUpdate api phase props imageRef containerName now
      [ApiCall.isRunning]

/-! ## DockerVolume (embedded from `src/alchemy/src/docker/volume.ts`) -/

/-- `VolumeLabel` from the volume provider. -/
structure VolumeLabel where
  name : String
  value : String
deriving DecidableEq, Repr

/-- The `labels` property: `VolumeLabel[] | Record<string, string>`. -/
inductive VolumeLabelsInput where
  | arr (ls : List VolumeLabel)
  | record (m : List (String × String))
deriving DecidableEq, Repr

/-- `DockerVolumeProps` from the volume provider. -/
structure DockerVolumeProps where
  name : String
  driver : Option String
  driverOpts : Option (List (String × String))
  labels : Option VolumeLabelsInput
deriving DecidableEq, Repr

/-- The `DockerVolume` output interface: spread of the props plus `id`,
`mountpoint` and `createdAt`.  (The mock path spreads the raw props, so
`labels` in the output keeps the input's union type.) -/
structure DockerVolumeOut where
  name : String
  driver : Option String
  driverOpts : Option (List (String × String))
  labels : Option VolumeLabelsInput
  id : String
  mountpoint : Option String
  createdAt : Nat
deriving DecidableEq, Repr

/-- The label normalization loop: an array of `{name, value}` objects is
folded into a record, a record is copied with `Object.assign`. -/
def processedLabels (labels : Option VolumeLabelsInput) :
    List (String × String) :=
  match labels with
  | none => []
  | some (.arr ls) => ls.foldl (fun acc l => recordSet acc l.name l.value) []
  | some (.record m) => m.foldl (fun acc kv => recordSet acc kv.1 kv.2) []

/-- The mock volume output committed when the daemon is not running
(`{...props, id: mock-..., createdAt: Date.now()}`; note this happens
before the `driver` defaulting, so `driver` is passed through unchanged). -/
def volumeMock (props : DockerVolumeProps) (now : Nat) : DockerVolumeOut :=
  { name := props.name
    driver := props.driver
    driverOpts := props.driverOpts
    labels := props.labels
    id := "mock-" ++ props.name ++ "-" ++ toString now
    mountpoint := none
    createdAt := now }

/-- The committed volume output: spread of the props (with `driver`
already defaulted to `"local"`), `id := volumeName`, the inspected
mountpoint, `createdAt := Date.now()`, and `labels` replaced by
`Array.isArray(props.labels) ? props.labels : undefined`. -/
def volumeCommit (props : DockerVolumeProps) (volumeName : String)
    (mountpoint : Option String) (now : Nat) : DockerVolumeOut :=
  { name := props.name
    driver := some (strOr props.driver "local")
    driverOpts := props.driverOpts
    labels :=
      match props.labels with
      | some (.arr ls) => some (.arr ls)
      | _ => none
    id := volumeName
    mountpoint := mountpoint
    createdAt := now }

/-- The `DockerVolume` handler (`src/alchemy/src/docker/volume.ts`).
Source order: probe the daemon and commit a mock output if it is down;
normalize the labels; in `delete` phase remove the prior volume (errors
swallowed) and confirm destruction; otherwise default the driver, create
the volume, inspect its mountpoint (errors swallowed) and commit. -/
def dockerVolumeHandler (api : DockerDaemon) (phase : Phase)
    (prior : Option DockerVolumeOut) (_id : String)
    (props : DockerVolumeProps) (now : Nat) : Step DockerVolumeOut :=
  if api.isRunning = false then
    { result := .commit (volumeMock props now), calls := [ApiCall.isRunning] }
  else
    let labels := processedLabels props.labels
    if phase = .delete then
      match prior with
      | some out =>
        if strTruthy out.name then
          { result := .destroyed
            calls := [ApiCall.isRunning, ApiCall.removeVolume out.name] }
        else
          { result := .destroyed, calls := [ApiCall.isRunning] }
      | none => { result := .destroyed, calls := [ApiCall.isRunning] }
    else
      let driver := strOr props.driver "local"
      let driverOpts := props.driverOpts.getD []
      let createCall := ApiCall.createVolume props.name driver driverOpts labels
      match api.createVolume props.name with
      | .error e =>
        { result := .raised e, calls := [ApiCall.isRunning, createCall] }
      | .ok volumeName =>
        let mountpoint := api.inspectMountpoint volumeName
        { result := .commit (volumeCommit props volumeName mountpoint now)
          calls := [ApiCall.isRunning, createCall,
            ApiCall.inspectVolume volumeName] }

/-! ## DockerNetwork (embedded from the provider source reproduced in
`src/alchemy-web/docs/providers/docker/index.md`) -/

/-- `DockerNetworkProps` from the network provider. -/
structure DockerNetworkProps where
  name : String
  driver : Option String
  enableIPv6 : Option Bool
  labels : Option (List (String × String))
deriving DecidableEq, Repr

/-- The `DockerNetwork` output interface: spread of the props plus `id`
and `createdAt`. -/
structure DockerNetworkOut where
  name : String
  driver : Option String
  enableIPv6 : Option Bool
  labels : Option (List (String × String))
  id : String
  createdAt : Nat
deriving DecidableEq, Repr

/-- The mock network output (`{...props, id: mock-..., createdAt}`). -/
def networkMock (props : DockerNetworkProps) (now : Nat) : DockerNetworkOut :=
  { name := props.name
    driver := props.driver
    enableIPv6 := props.enableIPv6
    labels := props.labels
    id := "mock-" ++ props.name ++ "-" ++ toString now
    createdAt := now }

/-- The committed network output (`{...props, id: networkId, createdAt}`). -/
def networkCommit (props : DockerNetworkProps) (networkId : String)
    (now : Nat) : DockerNetworkOut :=
  { name := props.name
    driver := props.driver
    enableIPv6 := props.enableIPv6
    labels := props.labels
    id := networkId
    createdAt := now }

/-- The `DockerNetwork` handler.  Source order: probe the daemon and
commit a mock output if it is down; in `delete` phase remove the prior
network (errors swallowed) and confirm destruction; otherwise create the
network with `props.driver || "bridge"` and commit. -/
def dockerNetworkHandler (api : DockerDaemon) (phase : Phase)
    (prior : Option DockerNetworkOut) (_id : String)
    (props : DockerNetworkProps) (now : Nat) : Step DockerNetworkOut :=
  if api.isRunning = false then
    { result := .commit (networkMock props now), calls := [ApiCall.isRunning] }
  else if phase = .delete then
    match prior with
    | some out =>
      if strTruthy out.id then
        { result := .destroyed
          calls := [ApiCall.isRunning, ApiCall.removeNetwork out.id] }
      else
        { result := .destroyed, calls := [ApiCall.isRunning] }
    | none => { result := .destroyed, calls := [ApiCall.isRunning] }
  else
    let driver := strOr props.driver "bridge"
    match api.createNetwork props.name driver with
    | .error e =>
      { result := .raised e
        calls := [ApiCall.isRunning, ApiCall.createNetwork props.name driver] }
    | .ok networkId =>
      { result := .commit (networkCommit props networkId now)
        calls := [ApiCall.isRunning, ApiCall.createNetwork props.name driver] }

/-! ## RemoteImage (embedded from the remote-image provider source) -/

/-- `RemoteImageProps` from the remote-image provider. -/
structure RemoteImageProps where
  name : String
  tag : Option String
  alwaysPull : Option Bool
deriving DecidableEq, Repr

/-- The `RemoteImage` output interface: spread of the props plus
`imageRef` and `createdAt`. -/
structure RemoteImageOut where
  name : String
  tag : Option String
  alwaysPull : Option Bool
  imageRef : String
  createdAt : Nat
deriving DecidableEq, Repr

/-- The `RemoteImage` handler.  Source order: compute
`imageRef = name + ":" + (tag || "latest")`; probe the daemon and commit a
mock output if it is down; in `delete` phase confirm destruction with no
further action ("No action needed for delete as Docker images aren't
automatically removed"); otherwise pull the image and commit. -/
def remoteImageHandler (api : DockerDaemon) (phase : Phase)
    (_prior : Option RemoteImageOut) (_id : String)
    (props : RemoteImageProps) (now : Nat) : Step RemoteImageOut :=
  let tag := strOr props.tag "latest"
  let imageRef := props.name ++ ":" ++ tag
  if api.isRunning = false then
    { result := .commit
        { name := props.name, tag := props.tag, alwaysPull := props.alwaysPull
          imageRef := imageRef, createdAt := now }
      calls := [ApiCall.isRunning] }
  else if phase = .delete then
    { result := .destroyed, calls := [ApiCall.isRunning] }
  else
    match api.pullImage imageRef with
    | .error e =>
      { result := .raised e
        calls := [ApiCall.isRunning, ApiCall.pullImage imageRef] }
    | .ok _ =>
      { result := .commit
          { name := props.name, tag := props.tag, alwaysPull := props.alwaysPull
            imageRef := imageRef, createdAt := now }
        calls := [ApiCall.isRunning, ApiCall.pullImage imageRef] }

/-! ## DockerImage, pull-or-build variant
(embedded from `src/alchemy/src/docker/image.ts`) -/

/-- The optional `build` block of the pull-or-build image provider. -/
structure ImageBuildSpec where
  context : String
  dockerfile : Option String
  args : Option (List (String × String))
deriving DecidableEq, Repr

/-- `DockerImageProps` from `src/alchemy/src/docker/image.ts`. -/
structure DockerImagePullProps where
  name : String
  tag : Option String
  build : Option ImageBuildSpec
  alwaysPull : Option Bool
deriving DecidableEq, Repr

/-- The output interface of the pull-or-build image provider: spread of
the props plus `imageRef` and `createdAt`. -/
structure DockerImagePullOut where
  name : String
  tag : Option String
  build : Option ImageBuildSpec
  alwaysPull : Option Bool
  imageRef : String
  createdAt : Nat
deriving DecidableEq, Repr

/-- The pull-or-build `DockerImage` handler
(`src/alchemy/src/docker/image.ts`).  Source order: compute `imageRef`;
probe the daemon and commit a mock output if it is down; in `delete`
phase confirm destruction with no further action; otherwise build (when a
`build` block is given) or pull the image, and commit. -/
def dockerImagePullHandler (api : DockerDaemon) (phase : Phase)
    (_prior : Option DockerImagePullOut) (_id : String)
    (props : DockerImagePullProps) (now : Nat) : Step DockerImagePullOut :=
  let tag := strOr props.tag "latest"
  let imageRef := props.name ++ ":" ++ tag
  let out : DockerImagePullOut :=
    { name := props.name, tag := props.tag, build := props.build
      alwaysPull := props.alwaysPull, imageRef := imageRef, createdAt := now }
  if api.isRunning = false then
    { result := .commit out, calls := [ApiCall.isRunning] }
  else if phase = .delete then
    { result := .destroyed, calls := [ApiCall.isRunning] }
  else
    match props.build with
    | some b =>
      match api.buildImage b.context with
      | .error e =>
        { result := .raised e
          calls := [ApiCall.isRunning,
            ApiCall.buildImage b.context imageRef (b.args.getD [])] }
      | .ok _ =>
        { result := .commit out
          calls := [ApiCall.isRunning,
            ApiCall.buildImage b.context imageRef (b.args.getD [])] }
    | none =>
      match api.pullImage imageRef with
      | .error e =>
        { result := .raised e
          calls := [ApiCall.isRunning, ApiCall.pullImage imageRef] }
      | .ok _ =>
        { result := .commit out
          calls := [ApiCall.isRunning, ApiCall.pullImage imageRef] }

/-! ## DockerImage, build-and-push variant
(embedded from the second module in `src/alchemy/src/docker/volume.ts`) -/

/-- `DockerBuildOptions` from the build-and-push image provider. -/
structure DockerBuildOptions where
  context : String
  dockerfile : Option String
  platform : Option String
  buildArgs : Option (List (String × String))
  target : Option String
  cacheFrom : Option (List String)
deriving DecidableEq, Repr

/-- `DockerImageProps` from the build-and-push image provider. -/
structure DockerImageBuildProps where
  name : String
  tag : Option String
  build : DockerBuildOptions
  skipPush : Option Bool
deriving DecidableEq, Repr

/-- The output interface of the build-and-push image provider: spread of
the props plus `imageRef`, `imageId`, `repoDigest` and `builtAt`. -/
structure DockerImageBuildOut where
  name : String
  tag : Option String
  build : DockerBuildOptions
  skipPush : Option Bool
  imageRef : String
  imageId : Option String
  repoDigest : Option String
  builtAt : Nat
deriving DecidableEq, Repr

/-- `path.join(context, dockerfile)` for the simple relative paths the
handler builds. -/
def pathJoin (a b : String) : String :=
  a ++ "/" ++ b

/-- A character the image-id capture group `([a-f0-9]+)` accepts. -/
def isBuildHex (c : Char) : Bool :=
  c.isDigit ∨ ('a' ≤ c ∧ c ≤ 'f')

/-- `/Successfully built ([a-f0-9]+)/.exec(stdout)`: the capture of the
first occurrence of the literal text that is followed by at least one
lowercase-hex character. -/
def extractImageId (stdout : String) : Option String :=
  match stdout.splitOn "Successfully built " with
  | [] => none
  | _ :: rest =>
    rest.findSome? fun s =>
      let h := s.takeWhile isBuildHex
      if h = "" then none else some h

/-- The `docker build` argument list the handler assembles, in source
order: `build -t imageRef`, then `--platform`, `--target`, `--cache-from`
entries, `--build-arg KEY="VALUE"` pairs, `-f` when a non-default
Dockerfile was given, and finally the context path. -/
def buildArgsList (props : DockerImageBuildProps) (imageRef : String) :
    List String :=
  ["build", "-t", imageRef]
    ++ (match props.build.platform with
        | some p => ["--platform", p]
        | none => [])
    ++ (match props.build.target with
        | some t => ["--target", t]
        | none => [])
    ++ (match props.build.cacheFrom with
        | some cf => cf.foldl (fun acc c => acc ++ ["--cache-from", c]) []
        | none => [])
    ++ ((props.build.buildArgs.getD []).foldl
        (fun acc kv =>
          acc ++ ["--build-arg", kv.1 ++ "=\"" ++ kv.2 ++ "\""]) [])
    ++ (match props.build.dockerfile with
        | some d => if d ≠ "" ∧ d ≠ "Dockerfile" then ["-f", d] else []
        | none => [])
    ++ [props.build.context]

/-- The build-and-push `DockerImage` handler (second module of
`src/alchemy/src/docker/volume.ts`).  Source order: compute `imageRef`;
probe the daemon and commit a mock output (with a time-stamped mock image
id) if it is down; in `delete` phase confirm destruction with no further
action; otherwise validate the build context and Dockerfile on the
filesystem (throwing if either is missing), assemble the `docker build`
argument list, run it, extract the image id from its stdout, and commit
(the push step is not implemented and only logs a warning). -/
def dockerImageBuildHandler (api : DockerDaemon) (phase : Phase)
    (_prior : Option DockerImageBuildOut) (_id : String)
    (props : DockerImageBuildProps) (now : Nat) : Step DockerImageBuildOut :=
  let tag := strOr props.tag "latest"
  let imageRef := props.name ++ ":" ++ tag
  if api.isRunning = false then
    { result := .commit
        { name := props.name, tag := props.tag, build := props.build
          skipPush := props.skipPush, imageRef := imageRef
          imageId := some ("mock-image-id-" ++ toString now)
          repoDigest := none, builtAt := now }
      calls := [ApiCall.isRunning] }
  else if phase = .delete then
    { result := .destroyed, calls := [ApiCall.isRunning] }
  else
    let context := props.build.context
    if api.fsExists context = false then
      { result := .raised ("Build context path does not exist: " ++ context)
        calls := [ApiCall.isRunning] }
    else
      let dockerfile := strOr props.build.dockerfile "Dockerfile"
      let dockerfilePath := pathJoin context dockerfile
      if api.fsExists dockerfilePath = false then
        { result := .raised ("Dockerfile does not exist: " ++ dockerfilePath)
          calls := [ApiCall.isRunning] }
      else
        let args := buildArgsList props imageRef
        match api.execBuild args with
        | .error e =>
          { result := .raised e
            calls := [ApiCall.isRunning, ApiCall.execDocker args] }
        | .ok stdout =>
          { result := .commit
              { name := props.name, tag := props.tag, build := props.build
                skipPush := props.skipPush, imageRef := imageRef
                imageId := extractImageId stdout
                repoDigest := none, builtAt := now }
            calls := [ApiCall.isRunning, ApiCall.execDocker args] }

/-! ## The reconciliation engine

The engine's own source files (`resource.ts`, `context.ts`, `alchemy.ts`,
`destroy.ts`, the scope and state-store modules) are not part of the
source tree we were given — only the providers, their tests, the docs and
the examples are.  The definitions in this section are therefore modelled
from the specification text (its §3 data model, §4 component design and
§7 error taxonomy), and each doc comment says so. -/

/-- Modelled from the spec: the `StateRecord` persisted in the State Store
for one resource (`{resourceType, properties, output}`; the source's
state-store module is not in the given tree).  `P` is the properties type
and `O` the output type, both opaque to the engine. -/
structure StateRecord (P O : Type) where
  typ : String
  props : P
  output : O
deriving DecidableEq, Repr

/-- Modelled from the spec: the State Store, a mapping from resource id to
its `StateRecord`, embedded as an association list. -/
abbrev Store (P O : Type) := List (String × StateRecord P O)

/-- Lookup of the first record stored under an id. -/
def lookupRec {P O : Type} : Store P O → String → Option (StateRecord P O)
  | [], _ => none
  | (k, r) :: rest, id => if k = id then some r else lookupRec rest id

/-- Removal of every record stored under an id. -/
def removeRec {P O : Type} : Store P O → String → Store P O
  | [], _ => []
  | (k, r) :: rest, id =>
    if k = id then removeRec rest id else (k, r) :: removeRec rest id

/-- Commit of a record under an id (replacing any prior record). -/
def insertRec {P O : Type} (s : Store P O) (id : String)
    (r : StateRecord P O) : Store P O :=
  removeRec s id ++ [(id, r)]

/-- Modelled from the spec: a provider handler, as the engine sees it — a
function of the context's phase, the prior output, the resource id and
the declared properties, returning the terminal action it took. -/
abbrev Handler (P O : Type) :=
  Phase → Option O → String → P → HandlerResult O

/-- Modelled from the spec: the engine's error taxonomy (§7). -/
inductive EngineError where
  | duplicateType
  | duplicateId
  | invalidContextUse
  | handlerFailure
deriving DecidableEq, Repr

/-- One handler invocation as observed from outside: which resource id,
which resource type, and in which phase it was invoked. -/
structure Invocation where
  id : String
  typ : String
  phase : Phase
deriving DecidableEq, Repr

/-- Modelled from the spec: the engine state one run owns — the handler
registry (type tag to handler), the State Store as it was at run start,
the current State Store, and the scope's ordered registration list. -/
structure EngineState (P O : Type) where
  handlers : String → Handler P O
  startStore : Store P O
  store : Store P O
  registered : List String

/-- Modelled from the spec: phase selection, done once before handler
invocation, as a pure function of the overall run phase, the prior
`StateRecord` for the id, and whether the resource is only present as an
orphan.  Run phase `destroy`, or an orphan, selects `delete`; otherwise
no prior record selects `create` and a prior record selects `update`. -/
def selectPhase {P O : Type} (runPhase : RunPhase)
    (prior : Option (StateRecord P O)) (orphan : Bool) : Phase :=
  if runPhase = .destroy ∨ orphan then .delete
  else
    match prior with
    | none => .create
    | some _ => .update

/-- The outcome of one constructor call: the engine state it leaves
behind, the handler invocations it performed, and its result. -/
structure ConstructResult (P O : Type) where
  state : EngineState P O
  trace : List Invocation
  result : Except EngineError O

/-- Modelled from the spec: the resource constructor
(`Constructor(id, props)` of §4.1).  It first registers the id in the
scope, failing with `DuplicateIdError` — without invoking the handler —
if the id is already registered; it then selects the phase from the prior
record, invokes the handler, and on `commit` persists
`{resourceType, properties, output}` into the State Store.  A handler
that confirms destruction outside `delete` phase is an invalid context
use; a handler that raises leaves the store untouched. -/
def construct {P O : Type} (st : EngineState P O) (typ id : String)
    (props : P) : ConstructResult P O :=
  if id ∈ st.registered then
    { state := st, trace := [], result := .error .duplicateId }
  else
    let prior := lookupRec st.store id
    let phase := selectPhase .up prior false
    let st1 := { st with registered := st.registered ++ [id] }
    let inv : Invocation := { id := id, typ := typ, phase := phase }
    match st.handlers typ phase (prior.map (fun r => r.output)) id props with
    | .commit o =>
      { state := { st1 with
          store := insertRec st1.store id { typ := typ, props := props, output := o } }
        trace := [inv]
        result := .ok o }
    | .destroyed =>
      { state := st1, trace := [inv], result := .error .invalidContextUse }
    | .raised _ =>
      { state := st1, trace := [inv], result := .error .handlerFailure }

/-- Modelled from the spec: one synthesized `delete`-phase invocation
against a stored record (used by the destroy sweep and by orphan
finalization).  `confirmDestroyed` removes the record; `commit` in
`delete` phase is an invalid context use; a raising handler leaves the
record in place. -/
def invokeDelete {P O : Type} (handlers : String → Handler P O)
    (s : Store P O) (id : String) (r : StateRecord P O) :
    Store P O × Invocation × Option EngineError :=
  let inv : Invocation := { id := id, typ := r.typ, phase := .delete }
  match handlers r.typ .delete (some r.output) id r.props with
  | .destroyed => (removeRec s id, inv, none)
  | .commit _ => (s, inv, some .invalidContextUse)
  | .raised _ => (s, inv, some .handlerFailure)

/-- The outcome of a destroy sweep: the resulting store, the ordered
invocation trace, and the errors accumulated along the way. -/
structure SweepResult (P O : Type) where
  store : Store P O
  trace : List Invocation
  errors : List EngineError

/-- Modelled from the spec: the sequential delete sweep over a list of
resource ids (§4.4).  Each id still present in the store is invoked in
`delete` phase through its stored type's handler; handler failures are
recorded and the sweep continues; an invalid context use (an engine-level
error) aborts immediately. -/
def destroySweep {P O : Type} (handlers : String → Handler P O) :
    Store P O → List String → SweepResult P O
  | s, [] => { store := s, trace := [], errors := [] }
  | s, id :: rest =>
    match lookupRec s id with
    | none => destroySweep handlers s rest
    | some r =>
      let inv : Invocation := { id := id, typ := r.typ, phase := .delete }
      match handlers r.typ .delete (some r.output) id r.props with
      | .destroyed =>
        let res := destroySweep handlers (removeRec s id) rest
        { store := res.store, trace := inv :: res.trace, errors := res.errors }
      | .commit _ =>
        { store := s, trace := [inv], errors := [.invalidContextUse] }
      | .raised _ =>
        let res := destroySweep handlers s rest
        { store := res.store, trace := inv :: res.trace
          errors := .handlerFailure :: res.errors }

/-- Modelled from the spec: a destroy run — iterate the scope's records in
reverse registration order (last created, first destroyed), invoking each
in `delete` phase. -/
def runDestroy {P O : Type} (st : EngineState P O) : SweepResult P O :=
  destroySweep st.handlers st.store st.registered.reverse

/-- Modelled from the spec: the orphan set — ids of `StateRecord`s present
in the State Store at run start but never registered during this run, in
store order. -/
def orphanIds {P O : Type} (st : EngineState P O) : List String :=
  (st.startStore.map Prod.fst).filter (fun id => decide (id ∉ st.registered))

/-- Modelled from the spec: `Scope.Finalize` (§4.3) — synthesize one
`delete`-phase invocation for each orphan and prune its record. -/
def finalize {P O : Type} (st : EngineState P O) : SweepResult P O :=
  destroySweep st.handlers st.store (orphanIds st)

/-- Modelled from the spec: a declared resource of an `up` run, as the
host program's `declare` code presents it to a constructor. -/
structure Decl (P : Type) where
  typ : String
  id : String
  props : P
deriving DecidableEq, Repr

/-- Modelled from the spec: the `up` portion of the Run Driver — execute
the declarations in order through `construct`, aborting at the first
error (fail-fast) while keeping earlier commits. -/
def runUp {P O : Type} : EngineState P O → List (Decl P) →
    EngineState P O × List Invocation × Option EngineError
  | st, [] => (st, [], none)
  | st, d :: rest =>
    let r := construct st d.typ d.id d.props
    match r.result with
    | .error e => (r.state, r.trace, some e)
    | .ok _ =>
      let (st2, t2, e2) := runUp r.state rest
      (st2, r.trace ++ t2, e2)

/-! ## Store and sweep lemmas -/

theorem lookupRec_removeRec {P O : Type} (s : Store P O) (id x : String) :
    lookupRec (removeRec s id) x = if x = id then none else lookupRec s x := by
  induction s with
  | nil => simp [removeRec, lookupRec]
  | cons kv rest ih =>
    obtain ⟨k, r⟩ := kv
    simp only [removeRec, lookupRec]
    by_cases hk : k = id
    · simp only [if_pos hk, ih]
      by_cases hx : x = id
      · simp [hx]
      · have hkx : ¬ k = x := fun he => hx (he ▸ hk)
        simp [hx, hkx]
    · simp only [if_neg hk, lookupRec]
      by_cases hkx : k = x
      · have hxid : ¬ x = id := fun he => hk (by rw [hkx, he])
        simp [hkx, hxid]
      · simp [hkx, ih]

theorem destroySweep_lookup_none {P O : Type} (h : String → Handler P O)
    (l : List String) (s : Store P O) (x : String)
    (hx : lookupRec s x = none) :
    lookupRec (destroySweep h s l).store x = none := by
  induction l generalizing s with
  | nil => simpa [destroySweep] using hx
  | cons id rest ih =>
    cases hl : lookupRec s id with
    | none =>
      simp only [destroySweep, hl]
      exact ih s hx
    | some r =>
      cases hres : h r.typ .delete (some r.output) id r.props with
      | commit o =>
        simp only [destroySweep, hl, hres]
        exact hx
      | destroyed =>
        simp only [destroySweep, hl, hres]
        apply ih
        rw [lookupRec_removeRec]
        by_cases hxi : x = id <;> simp [hxi, hx]
      | raised m =>
        simp only [destroySweep, hl, hres]
        exact ih s hx

/-- The invocation the sweep emits for an id, read off the store it
started from. -/
def sweepInv {P O : Type} (s : Store P O) (x : String) : Invocation :=
  { id := x, typ := ((lookupRec s x).map (fun r => r.typ)).getD ""
    phase := .delete }

theorem destroySweep_spec {P O : Type} (h : String → Handler P O)
    (l : List String) (s : Store P O) (hnd : l.Nodup)
    (hrec : ∀ x ∈ l, ∃ r, lookupRec s x = some r ∧
      h r.typ .delete (some r.output) x r.props = .destroyed) :
    (destroySweep h s l).trace = l.map (sweepInv s)
    ∧ (∀ x ∈ l, lookupRec (destroySweep h s l).store x = none)
    ∧ (destroySweep h s l).errors = [] := by
  induction l generalizing s with
  | nil => simp [destroySweep]
  | cons id rest ih =>
    obtain ⟨r, hr, hdes⟩ := hrec id (List.mem_cons_self id rest)
    have hnotmem : id ∉ rest := (List.nodup_cons.mp hnd).1
    have hndrest : rest.Nodup := (List.nodup_cons.mp hnd).2
    have hlook : ∀ x ∈ rest, lookupRec (removeRec s id) x = lookupRec s x := by
      intro x hx
      rw [lookupRec_removeRec]
      have : ¬ x = id := fun he => hnotmem (he ▸ hx)
      simp [this]
    have hrec' : ∀ x ∈ rest, ∃ r', lookupRec (removeRec s id) x = some r' ∧
        h r'.typ .delete (some r'.output) x r'.props = .destroyed := by
      intro x hx
      obtain ⟨r', hr', hd'⟩ := hrec x (List.mem_cons_of_mem id hx)
      exact ⟨r', (hlook x hx).trans hr', hd'⟩
    obtain ⟨iht, ihs, ihe⟩ := ih (removeRec s id) hndrest hrec'
    have hmap : rest.map (sweepInv (removeRec s id)) = rest.map (sweepInv s) := by
      apply List.map_congr_left
      intro x hx
      simp [sweepInv, hlook x hx]
    refine ⟨?_, ?_, ?_⟩
    · simp only [destroySweep, hr, hdes, List.map_cons]
      rw [iht, hmap]
      simp [sweepInv, hr]
    · intro x hx
      rcases List.mem_cons.mp hx with hxi | hxr
      · subst hxi
        simp only [destroySweep, hr, hdes]
        apply destroySweep_lookup_none
        rw [lookupRec_removeRec]
        simp
      · simp only [destroySweep, hr, hdes]
        exact ihs x hxr
    · simp only [destroySweep, hr, hdes]
      exact ihe

/-! ## Concrete fixtures used by witnesses -/

/-- An oracle for a machine where the Docker daemon is unreachable. -/
def daemonDown : DockerDaemon :=
  { isRunning := false
    containerExists := fun _ => false
    stopContainer := fun _ => .ok ()
    removeContainer := fun _ => .ok ()
    createContainer := fun _ _ => .ok "cid"
    connectNetwork := fun _ _ => .ok ()
    startContainer := fun _ => .ok ()
    createVolume := fun n => .ok n
    inspectMountpoint := fun _ => none
    removeVolume := fun _ => .ok ()
    createNetwork := fun _ _ => .ok "nid"
    removeNetwork := fun _ => .ok ()
    pullImage := fun _ => .ok ()
    buildImage := fun _ => .ok ()
    execBuild := fun _ => .ok ""
    fsExists := fun _ => true }

/-- An oracle for a reachable daemon where every call succeeds. -/
def daemonUp : DockerDaemon :=
  { daemonDown with isRunning := true }

/-- An oracle for a reachable daemon where every removal fails. -/
def daemonUpFailing : DockerDaemon :=
  { daemonDown with
    isRunning := true
    stopContainer := fun _ => .error "stop failed"
    removeContainer := fun _ => .error "remove failed"
    removeVolume := fun _ => .error "remove failed"
    removeNetwork := fun _ => .error "remove failed" }

/-- Sample container properties. -/
def cProps : DockerContainerProps :=
  { image := .str "nginx:latest", name := none, command := none
    environment := none, ports := none, volumes := none, restart := none
    networks := none, removeOnExit := none, start := none }

/-- A sample prior container output. -/
def cPrior : DockerContainerOut := containerCommit cProps "cid0" .running 0

/-- Sample volume properties. -/
def vProps : DockerVolumeProps :=
  { name := "data", driver := none, driverOpts := none, labels := none }

/-- A sample prior volume output. -/
def vPrior : DockerVolumeOut := volumeCommit vProps "data" none 0

/-- Sample network properties. -/
def nProps : DockerNetworkProps :=
  { name := "net", driver := none, enableIPv6 := none, labels := none }

/-- A sample prior network output. -/
def nPrior : DockerNetworkOut := networkCommit nProps "nid0" 0

/-- Sample remote-image properties. -/
def riProps : RemoteImageProps :=
  { name := "nginx", tag := none, alwaysPull := none }

/-- Sample pull-or-build image properties. -/
def ipProps : DockerImagePullProps :=
  { name := "nginx", tag := none, build := none, alwaysPull := none }

/-- Sample build-and-push image properties. -/
def ibProps : DockerImageBuildProps :=
  { name := "app", tag := none
    build := { context := "./app", dockerfile := none, platform := none
               buildArgs := none, target := none, cacheFrom := none }
    skipPush := none }

/-- A handler registry whose every handler raises before any terminal
action. -/
def raisingHandlers : String → Handler Nat Nat :=
  fun _ _ _ _ _ => .raised "boom"

/-- A handler registry whose every handler confirms destruction in any
phase. -/
def confirmingHandlers : String → Handler Nat Nat :=
  fun _ _ _ _ _ => .destroyed

/-- A sample state record over `Nat` properties and outputs. -/
def sampleRec : StateRecord Nat Nat := { typ := "T", props := 0, output := 1 }

/-- An engine state whose handlers raise, holding one prior record. -/
def engineStRaise : EngineState Nat Nat :=
  { handlers := raisingHandlers, startStore := [("a", sampleRec)]
    store := [("a", sampleRec)], registered := [] }

/-- An engine state with two registered resources and confirming
handlers, as left by an apply run that created `"a"` then `"b"`. -/
def engineStTwo : EngineState Nat Nat :=
  { handlers := confirmingHandlers
    startStore := [("a", sampleRec), ("b", sampleRec)]
    store := [("a", sampleRec), ("b", sampleRec)]
    registered := ["a", "b"] }

/-- An engine state holding one orphaned record (nothing registered). -/
def engineStOrphan : EngineState Nat Nat :=
  { handlers := confirmingHandlers
    startStore := [("orphan", sampleRec)]
    store := [("orphan", sampleRec)]
    registered := [] }

/-! ## The claims -/

/-- C1: Phase selection for a resource invocation is a pure, deterministic
function of the prior StateRecord and the overall run phase: with no
StateRecord under an apply run it selects `create`; with an existing
StateRecord under an apply run it selects `update`; under a destroy run,
or for an orphaned resource, it selects `delete`. -/
theorem phase_selection_pure_and_deterministic :
    (∀ (P O : Type) (prior : Option (StateRecord P O)) (orphan : Bool),
      selectPhase RunPhase.destroy prior orphan = Phase.delete)
    ∧ (∀ (P O : Type) (runPhase : RunPhase)
        (prior : Option (StateRecord P O)),
      selectPhase runPhase prior true = Phase.delete)
    ∧ (∀ (P O : Type),
      selectPhase RunPhase.up (none : Option (StateRecord P O)) false
        = Phase.create)
    ∧ (∀ (P O : Type) (r : StateRecord P O),
      selectPhase RunPhase.up (some r) false = Phase.update) := by
  refine ⟨?_, ?_, ?_, ?_⟩ <;> intros <;> simp [selectPhase]

/-- C8: calling a resource constructor a second time with the same
resource id in one run fails with `DuplicateIdError`, performs no handler
invocation, and leaves the engine state untouched — whatever the first
call did. -/
theorem duplicate_id_fails_without_reinvoking :
    ∀ (P O : Type) (st : EngineState P O) (typ1 id : String) (props1 : P)
      (typ2 : String) (props2 : P),
      (construct (construct st typ1 id props1).state typ2 id props2).result
        = Except.error EngineError.duplicateId
      ∧ (construct (construct st typ1 id props1).state typ2 id props2).trace
        = []
      ∧ (construct (construct st typ1 id props1).state typ2 id props2).state
        = (construct st typ1 id props1).state := by
  intro P O st typ1 id props1 typ2 props2
  have hreg : id ∈ (construct st typ1 id props1).state.registered := by
    by_cases hc : id ∈ st.registered
    · simp [construct, hc]
    · simp only [construct, if_neg hc]
      split <;> simp
  generalize (construct st typ1 id props1).state = st1 at hreg ⊢
  refine ⟨?_, ?_, ?_⟩ <;> simp [construct, hreg]

/-- C4: a handler invocation that raises before calling a terminal action
leaves the State Store exactly as it was: neither a constructor-driven
invocation whose handler raises, nor a synthesized delete invocation
whose handler raises, creates, mutates or removes any StateRecord. -/
theorem handler_raise_leaves_store_unchanged :
    (∀ (P O : Type) (st : EngineState P O) (typ id : String) (props : P),
      (construct st typ id props).result
        = Except.error EngineError.handlerFailure →
      (construct st typ id props).state.store = st.store)
    ∧ (∀ (P O : Type) (handlers : String → Handler P O) (s : Store P O)
        (id : String) (r : StateRecord P O),
      (invokeDelete handlers s id r).2.2 = some EngineError.handlerFailure →
      (invokeDelete handlers s id r).1 = s) := by
  constructor
  · intro P O st typ id props hres
    by_cases hc : id ∈ st.registered
    · simp [construct, hc]
    · simp only [construct, if_neg hc] at hres ⊢
      split at hres <;> simp_all
  · intro P O handlers s id r hres
    simp only [invokeDelete] at hres ⊢
    split at hres <;> simp_all

/-- Witness for C4 at a concrete raising handler over `Nat` state. -/
theorem handler_raise_leaves_store_unchanged_witness :
    (construct engineStRaise "T" "a" 0).state.store = engineStRaise.store
    ∧ (invokeDelete raisingHandlers [("a", sampleRec)] "a" sampleRec).1
      = [("a", sampleRec)] :=
  ⟨handler_raise_leaves_store_unchanged.1 Nat Nat engineStRaise "T" "a" 0 rfl,
   handler_raise_leaves_store_unchanged.2 Nat Nat raisingHandlers
     [("a", sampleRec)] "a" sampleRec rfl⟩

/-- C2: during a destroy run, delete-phase invocations occur in strict
reverse registration order: if resource A was registered at position `i`
and B at a later position `j`, then the sweep's (sequential) trace holds
exactly one delete invocation for each, and B's occurs strictly before
A's — so B's invocation completes before A's begins.  Hypotheses: each
registered id has a record in the store, and each stored handler confirms
destruction in delete phase (the handler contract). -/
theorem destroy_reverse_registration_order :
    ∀ (P O : Type) (st : EngineState P O) (i j : Nat)
      (hi : i < st.registered.length) (hj : j < st.registered.length),
      i < j → st.registered.Nodup →
      (∀ x ∈ st.registered, ∃ r, lookupRec st.store x = some r ∧
        st.handlers r.typ .delete (some r.output) x r.props = .destroyed) →
      ∃ (p q : Nat) (hp : p < (runDestroy st).trace.length)
        (hq : q < (runDestroy st).trace.length),
        q < p
        ∧ ((runDestroy st).trace.get ⟨p, hp⟩).id = st.registered.get ⟨i, hi⟩
        ∧ ((runDestroy st).trace.get ⟨p, hp⟩).phase = Phase.delete
        ∧ ((runDestroy st).trace.get ⟨q, hq⟩).id = st.registered.get ⟨j, hj⟩
        ∧ ((runDestroy st).trace.get ⟨q, hq⟩).phase = Phase.delete
        ∧ (∀ (k : Nat) (hk : k < (runDestroy st).trace.length),
            ((runDestroy st).trace.get ⟨k, hk⟩).id
              = st.registered.get ⟨i, hi⟩ → k = p)
        ∧ (∀ (k : Nat) (hk : k < (runDestroy st).trace.length),
            ((runDestroy st).trace.get ⟨k, hk⟩).id
              = st.registered.get ⟨j, hj⟩ → k = q) := by
  intro P O st i j hi hj hij hnd hok
  have hnd' : st.registered.reverse.Nodup := List.nodup_reverse.mpr hnd
  have hok' : ∀ x ∈ st.registered.reverse, ∃ r, lookupRec st.store x = some r ∧
      st.handlers r.typ .delete (some r.output) x r.props = .destroyed := by
    intro x hx
    exact hok x (List.mem_reverse.mp hx)
  obtain ⟨htr, -, -⟩ :=
    destroySweep_spec st.handlers st.registered.reverse st.store hnd' hok'
  have htrace : (runDestroy st).trace
      = st.registered.reverse.map (sweepInv st.store) := htr
  have hlen : (runDestroy st).trace.length = st.registered.length := by
    rw [htrace]
    simp
  have hgetid : ∀ (k : Nat) (hk : k < (runDestroy st).trace.length)
      (hk' : st.registered.length - 1 - k < st.registered.length),
      ((runDestroy st).trace.get ⟨k, hk⟩).id
        = st.registered.get ⟨st.registered.length - 1 - k, hk'⟩ := by
    intro k hk hk'
    rw [List.get_of_eq htrace ⟨k, hk⟩]
    simp only [Fin.cast_mk, List.get_eq_getElem, List.getElem_map,
      List.getElem_reverse]
    simp [sweepInv]
  have hgetph : ∀ (k : Nat) (hk : k < (runDestroy st).trace.length),
      ((runDestroy st).trace.get ⟨k, hk⟩).phase = Phase.delete := by
    intro k hk
    rw [List.get_of_eq htrace ⟨k, hk⟩]
    simp only [Fin.cast_mk, List.get_eq_getElem, List.getElem_map]
    simp [sweepInv]
  set n := st.registered.length with hn
  refine ⟨n - 1 - i, n - 1 - j, by omega, by omega, by omega, ?_, ?_, ?_, ?_, ?_, ?_⟩
  · rw [hgetid (n - 1 - i) (by omega) (by omega)]
    congr 1
    simp only [Fin.mk.injEq]
    omega
  · exact hgetph (n - 1 - i) (by omega)
  · rw [hgetid (n - 1 - j) (by omega) (by omega)]
    congr 1
    simp only [Fin.mk.injEq]
    omega
  · exact hgetph (n - 1 - j) (by omega)
  · intro k hk heq
    rw [hgetid k hk (by omega)] at heq
    have := (List.Nodup.get_inj_iff hnd).mp heq
    simp only [Fin.mk.injEq] at this
    omega
  · intro k hk heq
    rw [hgetid k hk (by omega)] at heq
    have := (List.Nodup.get_inj_iff hnd).mp heq
    simp only [Fin.mk.injEq] at this
    omega

/-- Witness for C2 on a two-resource scope registered as `["a", "b"]`:
`"b"`'s delete invocation strictly precedes `"a"`'s in the destroy
trace, and each occurs exactly once. -/
theorem destroy_reverse_registration_order_witness :
    ∃ (p q : Nat) (hp : p < (runDestroy engineStTwo).trace.length)
      (hq : q < (runDestroy engineStTwo).trace.length),
      q < p
      ∧ ((runDestroy engineStTwo).trace.get ⟨p, hp⟩).id
        = engineStTwo.registered.get ⟨0, by decide⟩
      ∧ ((runDestroy engineStTwo).trace.get ⟨p, hp⟩).phase = Phase.delete
      ∧ ((runDestroy engineStTwo).trace.get ⟨q, hq⟩).id
        = engineStTwo.registered.get ⟨1, by decide⟩
      ∧ ((runDestroy engineStTwo).trace.get ⟨q, hq⟩).phase = Phase.delete
      ∧ (∀ (k : Nat) (hk : k < (runDestroy engineStTwo).trace.length),
          ((runDestroy engineStTwo).trace.get ⟨k, hk⟩).id
            = engineStTwo.registered.get ⟨0, by decide⟩ → k = 1)
      ∧ (∀ (k : Nat) (hk : k < (runDestroy engineStTwo).trace.length),
          ((runDestroy engineStTwo).trace.get ⟨k, hk⟩).id
            = engineStTwo.registered.get ⟨1, by decide⟩ → k = 0) := by
  have h := destroy_reverse_registration_order Nat Nat engineStTwo 0 1
    (by decide) (by decide) (by decide) (by decide)
    (by
      intro x hx
      have hx' : x = "a" ∨ x = "b" := by simpa [engineStTwo] using hx
      rcases hx' with h | h <;> subst h <;> exact ⟨sampleRec, rfl, rfl⟩)
  obtain ⟨p, q, hp, hq, hqp, hpid, hpph, hqid, hqph, hpu, hqu⟩ := h
  have hplen : (runDestroy engineStTwo).trace.length = 2 := by decide
  have hp1 : p = 1 := by omega
  have hq0 : q = 0 := by omega
  subst hp1
  subst hq0
  exact ⟨1, 0, hp, hq, hqp, hpid, hpph, hqid, hqph, hpu, hqu⟩

/-! ## Store key lemmas for orphan finalization -/

theorem lookupRec_some_mem_keys {P O : Type} (s : Store P O) (x : String)
    (r : StateRecord P O) (h : lookupRec s x = some r) :
    x ∈ s.map Prod.fst := by
  induction s with
  | nil => simp [lookupRec] at h
  | cons kv rest ih =>
    obtain ⟨k, rr⟩ := kv
    simp only [lookupRec] at h
    by_cases hk : k = x
    · simp [hk]
    · simp only [if_neg hk] at h
      simp [ih h]

theorem mem_keys_exists_lookup {P O : Type} (s : Store P O) (x : String)
    (h : x ∈ s.map Prod.fst) : ∃ r, lookupRec s x = some r := by
  induction s with
  | nil => simp at h
  | cons kv rest ih =>
    obtain ⟨k, rr⟩ := kv
    by_cases hk : k = x
    · exact ⟨rr, by simp [lookupRec, hk]⟩
    · simp only [List.map_cons, List.mem_cons] at h
      rcases h with h | h
      · exact absurd h.symm hk
      · obtain ⟨r, hr⟩ := ih h
        exact ⟨r, by simp [lookupRec, hk, hr]⟩

/-- In the trace a sweep emits over distinct ids, an id that belongs to
the sweep's list accounts for exactly one invocation. -/
theorem sweep_trace_filter {P O : Type} (s : Store P O) (l : List String)
    (hnd : l.Nodup) (x : String) (hx : x ∈ l) :
    (l.map (sweepInv s)).filter (fun inv => decide (inv.id = x))
      = [sweepInv s x] := by
  induction l with
  | nil => cases hx
  | cons a rest ih =>
    have hna : a ∉ rest := (List.nodup_cons.mp hnd).1
    have hndr : rest.Nodup := (List.nodup_cons.mp hnd).2
    rcases List.mem_cons.mp hx with h | h
    · subst h
      simp only [List.map_cons, List.filter_cons]
      have hpred : (sweepInv s x).id = x := rfl
      rw [if_pos (by simp [hpred])]
      have hrest : (rest.map (sweepInv s)).filter
          (fun inv => decide (inv.id = x)) = [] := by
        rw [List.filter_eq_nil_iff]
        intro inv hinv
        obtain ⟨y, hy, hinv⟩ := List.mem_map.mp hinv
        subst hinv
        have : ¬ y = x := fun he => hna (he ▸ hy)
        simpa [sweepInv]
      rw [hrest]
    · simp only [List.map_cons, List.filter_cons]
      have : ¬ a = x := fun he => hna (he ▸ h)
      rw [if_neg (by simpa [sweepInv] )]
      exact ih hndr h

/-- C5: for every StateRecord present at run start whose id is never
registered during the apply run (an orphan), `Scope.Finalize` synthesizes
exactly one delete-phase invocation against the record's stored type, and
the StateRecord is absent from the State Store afterwards.  Hypotheses:
store keys are distinct, orphan records were untouched during the run,
and the stored handlers honor the delete contract (confirm
destruction). -/
theorem finalize_deletes_orphans :
    ∀ (P O : Type) (st : EngineState P O) (id : String)
      (r : StateRecord P O),
      (st.startStore.map Prod.fst).Nodup →
      lookupRec st.startStore id = some r →
      id ∉ st.registered →
      (∀ x ∈ orphanIds st, lookupRec st.store x = lookupRec st.startStore x) →
      (∀ (x : String) (rx : StateRecord P O), x ∈ orphanIds st →
        lookupRec st.startStore x = some rx →
        st.handlers rx.typ .delete (some rx.output) x rx.props = .destroyed) →
      (finalize st).trace.filter (fun inv => decide (inv.id = id))
        = [{ id := id, typ := r.typ, phase := Phase.delete }]
      ∧ lookupRec (finalize st).store id = none
      ∧ (finalize st).errors = [] := by
  intro P O st id r hkeys hlook hreg hco hcf
  have hmemkeys : id ∈ st.startStore.map Prod.fst :=
    lookupRec_some_mem_keys st.startStore id r hlook
  have hmem : id ∈ orphanIds st := by
    simp only [orphanIds, List.mem_filter, decide_eq_true_eq]
    exact ⟨hmemkeys, hreg⟩
  have hndorph : (orphanIds st).Nodup := hkeys.filter _
  have hrec : ∀ x ∈ orphanIds st, ∃ rx, lookupRec st.store x = some rx ∧
      st.handlers rx.typ .delete (some rx.output) x rx.props = .destroyed := by
    intro x hx
    have hxkeys : x ∈ st.startStore.map Prod.fst := by
      have := List.mem_filter.mp hx
      exact this.1
    obtain ⟨rx, hrx⟩ := mem_keys_exists_lookup st.startStore x hxkeys
    refine ⟨rx, ?_, hcf x rx hx hrx⟩
    rw [hco x hx]
    exact hrx
  obtain ⟨htr, hst, herr⟩ :=
    destroySweep_spec st.handlers (orphanIds st) st.store hndorph hrec
  refine ⟨?_, ?_, ?_⟩
  · have : (finalize st).trace = (orphanIds st).map (sweepInv st.store) := htr
    rw [this, sweep_trace_filter st.store (orphanIds st) hndorph id hmem]
    have hlk : lookupRec st.store id = some r := by
      rw [hco id hmem]
      exact hlook
    simp [sweepInv, hlk]
  · exact hst id hmem
  · exact herr

/-- Witness for C5: an engine state holding one orphaned record and
registering nothing; finalize emits exactly one delete invocation for it
and removes its record. -/
theorem finalize_deletes_orphans_witness :
    (finalize engineStOrphan).trace.filter
        (fun inv => decide (inv.id = "orphan"))
      = [{ id := "orphan", typ := sampleRec.typ, phase := Phase.delete }]
    ∧ lookupRec (finalize engineStOrphan).store "orphan" = none
    ∧ (finalize engineStOrphan).errors = [] :=
  finalize_deletes_orphans Nat Nat engineStOrphan "orphan" sampleRec
    (by decide) rfl (by decide)
    (by
      intro x hx
      rfl)
    (by
      intro x rx hx hlk
      rfl)

/-- A second daemon-unreachable oracle whose other call outcomes differ
from `daemonDown`'s (used to show the mock output ignores them). -/
def daemonDownAlt : DockerDaemon :=
  { daemonUpFailing with isRunning := false }

/-- Sample volume properties carrying array-form labels. -/
def vArrProps : DockerVolumeProps :=
  { name := "data", driver := none, driverOpts := none
    labels := some (.arr [{ name := "k", value := "v" }]) }

/-- C3 (the code at the failing input): a delete-phase invocation of the
Docker container or volume handler taken while the daemon is unreachable
commits a mock output — it does not confirm destruction — because the
mock/placeholder path runs before the phase dispatch. -/
theorem docker_delete_with_daemon_down_commits :
    (dockerContainerHandler daemonDown .delete (some cPrior) "web" cProps
        7).result
      = .commit (containerMock cProps "alchemy-web" 7)
    ∧ (dockerVolumeHandler daemonDown .delete (some vPrior) "data" vProps
        7).result
      = .commit (volumeMock vProps 7)
    ∧ (dockerContainerHandler daemonDown .delete (some cPrior) "web" cProps
        7).result ≠ .destroyed
    ∧ (dockerVolumeHandler daemonDown .delete (some vPrior) "data" vProps
        7).result ≠ .destroyed := by
  exact ⟨by decide, by decide, by decide, by decide⟩

/-- C6: with the daemon reachable, every delete-phase invocation of the
container, volume or network handler confirms destruction — whatever the
outcomes of the external stop/removal calls, including failures and
no-ops — and a confirmed destruction removes the StateRecord. -/
theorem docker_delete_confirms_despite_failures :
    (∀ (api : DockerDaemon) (prior : Option DockerContainerOut)
        (id : String) (props : DockerContainerProps) (now : Nat),
      api.isRunning = true →
      (dockerContainerHandler api .delete prior id props now).result
        = .destroyed)
    ∧ (∀ (api : DockerDaemon) (prior : Option DockerVolumeOut)
        (id : String) (props : DockerVolumeProps) (now : Nat),
      api.isRunning = true →
      (dockerVolumeHandler api .delete prior id props now).result
        = .destroyed)
    ∧ (∀ (api : DockerDaemon) (prior : Option DockerNetworkOut)
        (id : String) (props : DockerNetworkProps) (now : Nat),
      api.isRunning = true →
      (dockerNetworkHandler api .delete prior id props now).result
        = .destroyed)
    ∧ (∀ (P O : Type) (handlers : String → Handler P O) (s : Store P O)
        (id : String) (r : StateRecord P O),
      handlers r.typ .delete (some r.output) id r.props = .destroyed →
      lookupRec (invokeDelete handlers s id r).1 id = none) := by
  refine ⟨?_, ?_, ?_, ?_⟩
  · intro api prior id props now hrun
    cases prior with
    | none => simp [dockerContainerHandler, hrun]
    | some out =>
      by_cases hid : strTruthy out.id <;>
        simp [dockerContainerHandler, hrun, hid]
  · intro api prior id props now hrun
    cases prior with
    | none => simp [dockerVolumeHandler, hrun]
    | some out =>
      by_cases hid : strTruthy out.name <;>
        simp [dockerVolumeHandler, hrun, hid]
  · intro api prior id props now hrun
    cases prior with
    | none => simp [dockerNetworkHandler, hrun]
    | some out =>
      by_cases hid : strTruthy out.id <;>
        simp [dockerNetworkHandler, hrun, hid]
  · intro P O handlers s id r hdes
    simp [invokeDelete, hdes, lookupRec_removeRec]

/-- Witness for C6: a reachable daemon whose stop/removal calls all fail
still yields confirmed destruction for all three handlers, and a
confirmed destruction removes the record. -/
theorem docker_delete_confirms_despite_failures_witness :
    (dockerContainerHandler daemonUpFailing .delete (some cPrior) "web"
        cProps 0).result = .destroyed
    ∧ (dockerVolumeHandler daemonUpFailing .delete (some vPrior) "data"
        vProps 0).result = .destroyed
    ∧ (dockerNetworkHandler daemonUpFailing .delete (some nPrior) "net"
        nProps 0).result = .destroyed
    ∧ lookupRec
        (invokeDelete confirmingHandlers [("a", sampleRec)] "a" sampleRec).1
        "a" = none :=
  ⟨docker_delete_confirms_despite_failures.1 daemonUpFailing (some cPrior)
      "web" cProps 0 rfl,
   docker_delete_confirms_despite_failures.2.1 daemonUpFailing (some vPrior)
      "data" vProps 0 rfl,
   docker_delete_confirms_despite_failures.2.2.1 daemonUpFailing (some nPrior)
      "net" nProps 0 rfl,
   docker_delete_confirms_despite_failures.2.2.2 Nat Nat confirmingHandlers
      [("a", sampleRec)] "a" sampleRec rfl⟩

/-- C7 (counterexample to the claim as stated): two invocations of the
same handler with identical id and properties, both taken while the
daemon is unreachable but at different times, produce different
placeholder Outputs — the mock id and `createdAt` embed `Date.now()`. -/
theorem mock_output_differs_across_time :
    dockerContainerHandler daemonDown .create none "web" cProps 0
      ≠ dockerContainerHandler daemonDown .create none "web" cProps 1
    ∧ dockerVolumeHandler daemonDown .create none "data" vProps 0
      ≠ dockerVolumeHandler daemonDown .create none "data" vProps 1 := by
  exact ⟨by decide, by decide⟩

/-- C7 (amended): the placeholder Output is a deterministic function of
the resource id, the properties and the invocation timestamp alone: two
daemon-unreachable invocations with identical id, properties and
timestamp return identical Steps, whatever their phases, prior outputs
and other oracle outcomes. -/
theorem mock_output_deterministic_given_time :
    (∀ (api1 api2 : DockerDaemon) (ph1 ph2 : Phase)
        (pr1 pr2 : Option DockerContainerOut) (id : String)
        (props : DockerContainerProps) (now : Nat),
      api1.isRunning = false → api2.isRunning = false →
      dockerContainerHandler api1 ph1 pr1 id props now
        = dockerContainerHandler api2 ph2 pr2 id props now)
    ∧ (∀ (api1 api2 : DockerDaemon) (ph1 ph2 : Phase)
        (pr1 pr2 : Option DockerVolumeOut) (id : String)
        (props : DockerVolumeProps) (now : Nat),
      api1.isRunning = false → api2.isRunning = false →
      dockerVolumeHandler api1 ph1 pr1 id props now
        = dockerVolumeHandler api2 ph2 pr2 id props now) := by
  constructor
  · intro api1 api2 ph1 ph2 pr1 pr2 id props now h1 h2
    simp [dockerContainerHandler, h1, h2]
  · intro api1 api2 ph1 ph2 pr1 pr2 id props now h1 h2
    simp [dockerVolumeHandler, h1, h2]

/-- Witness for the amended C7: same id, properties and timestamp, with
different phases, prior outputs and oracle outcomes, give equal Steps. -/
theorem mock_output_deterministic_given_time_witness :
    dockerContainerHandler daemonDown .create none "web" cProps 3
      = dockerContainerHandler daemonDownAlt .delete (some cPrior) "web"
          cProps 3
    ∧ dockerVolumeHandler daemonDown .create none "data" vProps 3
      = dockerVolumeHandler daemonDownAlt .delete (some vPrior) "data"
          vProps 3 :=
  ⟨mock_output_deterministic_given_time.1 daemonDown daemonDownAlt .create
      .delete none (some cPrior) "web" cProps 3 rfl rfl,
   mock_output_deterministic_given_time.2 daemonDown daemonDownAlt .create
      .delete none (some vPrior) "data" vProps 3 rfl rfl⟩

/-- C9 (counterexample to the claim as stated): a delete-phase invocation
of an image handler does issue one external command — the
daemon-reachability probe that every invocation starts with — so its call
list is not empty. -/
theorem image_delete_issues_daemon_probe :
    (remoteImageHandler daemonUp .delete none "img" riProps 0).calls ≠ []
    ∧ (remoteImageHandler daemonUp .delete none "img" riProps 0).calls
      = [ApiCall.isRunning]
    ∧ (dockerImagePullHandler daemonUp .delete none "img" ipProps 0).calls
      = [ApiCall.isRunning]
    ∧ (dockerImageBuildHandler daemonUp .delete none "img" ibProps 0).calls
      = [ApiCall.isRunning] := by
  exact ⟨by decide, rfl, rfl, rfl⟩

/-- C9 (amended): with the daemon reachable, a delete-phase invocation of
any of the three image handlers performs no Docker operation beyond the
daemon-reachability probe — in particular no image removal — and
immediately confirms destruction, so only the StateRecord is removed
while the image remains on the host. -/
theorem image_delete_no_operation_beyond_probe :
    ∀ (api : DockerDaemon) (pr1 : Option RemoteImageOut)
      (pr2 : Option DockerImagePullOut) (pr3 : Option DockerImageBuildOut)
      (id : String) (props1 : RemoteImageProps)
      (props2 : DockerImagePullProps) (props3 : DockerImageBuildProps)
      (now : Nat),
      api.isRunning = true →
      remoteImageHandler api .delete pr1 id props1 now
        = { result := .destroyed, calls := [ApiCall.isRunning] }
      ∧ dockerImagePullHandler api .delete pr2 id props2 now
        = { result := .destroyed, calls := [ApiCall.isRunning] }
      ∧ dockerImageBuildHandler api .delete pr3 id props3 now
        = { result := .destroyed, calls := [ApiCall.isRunning] } := by
  intro api pr1 pr2 pr3 id props1 props2 props3 now hrun
  refine ⟨?_, ?_, ?_⟩
  · simp [remoteImageHandler, hrun]
  · simp [dockerImagePullHandler, hrun]
  · simp [dockerImageBuildHandler, hrun]

/-- Witness for the amended C9 at concrete image resources. -/
theorem image_delete_no_operation_beyond_probe_witness :
    remoteImageHandler daemonUp .delete none "img" riProps 5
      = { result := .destroyed, calls := [ApiCall.isRunning] }
    ∧ dockerImagePullHandler daemonUp .delete none "img" ipProps 5
      = { result := .destroyed, calls := [ApiCall.isRunning] }
    ∧ dockerImageBuildHandler daemonUp .delete none "img" ibProps 5
      = { result := .destroyed, calls := [ApiCall.isRunning] } :=
  image_delete_no_operation_beyond_probe daemonUp none none none "img"
    riProps ipProps ibProps 5 rfl

/-- C10: a successful create/update invocation of the volume handler
commits an Output whose `labels` field is the input labels when they were
given as an array of `{name, value}` objects, and is undefined when they
were given as a Record or omitted. -/
theorem volume_output_labels_shape :
    ∀ (api : DockerDaemon) (phase : Phase) (prior : Option DockerVolumeOut)
      (id : String) (props : DockerVolumeProps) (now : Nat) (vn : String),
      api.isRunning = true → phase ≠ .delete →
      api.createVolume props.name = .ok vn →
      ∃ out,
        (dockerVolumeHandler api phase prior id props now).result
          = .commit out
        ∧ (∀ ls, props.labels = some (.arr ls) → out.labels = some (.arr ls))
        ∧ (∀ m, props.labels = some (.record m) → out.labels = none)
        ∧ (props.labels = none → out.labels = none) := by
  intro api phase prior id props now vn hrun hph hcv
  refine ⟨volumeCommit props vn (api.inspectMountpoint vn) now, ?_, ?_, ?_, ?_⟩
  · simp [dockerVolumeHandler, hrun, hph, hcv]
  · intro ls h
    simp [volumeCommit, h]
  · intro m h
    simp [volumeCommit, h]
  · intro h
    simp [volumeCommit, h]

/-- Witness for C10 at a concrete volume carrying array-form labels. -/
theorem volume_output_labels_shape_witness :
    ∃ out,
      (dockerVolumeHandler daemonUp .create none "vol" vArrProps 0).result
        = .commit out
      ∧ (∀ ls, vArrProps.labels = some (.arr ls) → out.labels = some (.arr ls))
      ∧ (∀ m, vArrProps.labels = some (.record m) → out.labels = none)
      ∧ (vArrProps.labels = none → out.labels = none) :=
  volume_output_labels_shape daemonUp .create none "vol" vArrProps 0 "data"
    rfl (by decide) rfl

end Alchemy
